import Mathlib

/-!
Shallow embedding of the react-frontload core (src/index.js): the process
scoped queue registry, the promise settle-join utility, the flush engine,
the per-node push protocol of the Frontload provider, and the recursive
server render-pass coordinator. Machine promises are modelled by the
virtual time at which they settle together with their settled outcome.
-/

namespace ReactFrontload

/-- Settled outcome of a JS promise: fulfilled with a value or rejected
with an error payload. Payload types are opaque to the library, so errors
are modelled as Nat. -/
inductive POutcome (α : Type) where
  | resolved (v : α)
  | rejected (e : Nat)
deriving DecidableEq, Repr

/-- A JS promise, modelled by the virtual time at which it settles and the
settled outcome it produces. -/
structure JsPromise (α : Type) where
  time : Nat
  outcome : POutcome α
deriving DecidableEq, Repr

def isRejected {α : Type} (p : JsPromise α) : Bool :=
  match p.outcome with
  | .rejected _ => true
  | .resolved _ => false

def resolvedValue? {α : Type} (p : JsPromise α) : Option α :=
  match p.outcome with
  | .resolved v => some v
  | .rejected _ => none

def rejectedError {α : Type} (p : JsPromise α) : Nat :=
  match p.outcome with
  | .rejected e => e
  | .resolved _ => 0

/-- Host semantics of Promise.all: if every input resolves, the joined
promise resolves with the list of values once the last input has settled;
otherwise it rejects when the earliest rejection settles, with that
rejection payload. -/
def promiseAll {α : Type} (ps : List (JsPromise α)) : JsPromise (List α) :=
  if (ps.filter isRejected).isEmpty then
    { time := (ps.map JsPromise.time).foldr Nat.max 0
      outcome := .resolved (ps.filterMap resolvedValue?) }
  else
    let rejected := ps.filter isRejected
    let t := (rejected.map JsPromise.time).foldr Nat.min
      ((rejected.map JsPromise.time).headD 0)
    let firstRej := (rejected.find? (fun p => p.time == t)).getD
      { time := t, outcome := .rejected 0 }
    { time := t, outcome := .rejected (rejectedError firstRej) }

/-- Model of promise.catch with handler (error) => error, as applied by
waitForAllToComplete (source lines 41-45): a rejection is converted into a
fulfillment carrying the error payload, settling at the same time. -/
def jsCatch (p : JsPromise Nat) : JsPromise Nat :=
  match p.outcome with
  | .resolved _ => p
  | .rejected e => { time := p.time, outcome := .resolved e }

/-- Source waitForAllToComplete: Promise.all over the catch-wrapped
promises. It settles only once every input has settled, and it never
rejects, whatever the individual outcomes. -/
def waitForAllToComplete (promises : List (JsPromise Nat)) : JsPromise (List Nat) :=
  promiseAll (promises.map jsCatch)

/-- Per-node options of a frontload function. onMount and onUpdate are
Option Bool because the source distinguishes an absent option from an
explicit false (options.onMount === false versus !options.onUpdate). -/
structure NodeOptions where
  onMount : Option Bool := none
  onUpdate : Option Bool := none
  noServerRender : Bool := false
deriving DecidableEq, Repr

/-- JS truthiness of a possibly-absent boolean option. -/
def truthy : Option Bool → Bool
  | some b => b
  | none => false

/-- Options accepted by the flush engine. -/
structure FlushOptions where
  firstClientRender : Bool := false
  noServerRender : Bool := false
deriving DecidableEq, Repr

/-- A queued load request, as built by pushFrontload on the server
(source lines 109-113): the deferred fetch closure is modelled by the
promise it returns plus an identifier used to trace executions. -/
structure LoadRequest where
  fnId : Nat
  promise : JsPromise Nat
  options : NodeOptions
  componentDisplayName : String
deriving DecidableEq, Repr

/-- The process-scoped FRONTLOAD_QUEUES registry: a table of slots, each a
list of queued load requests. -/
abbrev Registry := List (List LoadRequest)

/-- Source cleanQueues: with no index the whole registry is replaced by an
empty array; with an index just that slot is emptied. -/
def cleanQueues (reg : Registry) (index : Option Nat) : Registry :=
  match index with
  | none => []
  | some i => reg.set i []

/-- Slot allocation performed by the Frontload provider constructor
(source line 139): FRONTLOAD_QUEUES.push([]) - 1, i.e. append an empty
slot and return its index, which is the previous registry length. -/
def allocateQueue (reg : Registry) : Registry × Nat :=
  (reg ++ [[]], reg.length)

/-- The registry mutation performed by an enqueue: queue.unshift(request)
on the slot at the given index (source line 109). -/
def enqueueRequest (reg : Registry) (index : Nat) (r : LoadRequest) : Registry :=
  reg.set index (r :: reg.getD index [])

/-- Second-pass filter applied by the flush engine to each queued request
(source lines 60-68): when firstClientRender is unset every request runs;
on the first client render only requests covered by a noServerRender flag
(global or per request) run. -/
def shouldExecuteOnFlush (options : FlushOptions) (frontload : LoadRequest) : Bool :=
  !options.firstClientRender || (options.noServerRender || frontload.options.noServerRender)

/-- Result of flushing one slot: the updated registry, the requests whose
fetch closures were invoked (in queue order), and the settle-join promise
returned to the caller. -/
structure SlotFlushResult where
  registry : Registry
  executed : List LoadRequest
  promise : JsPromise (List Nat)
deriving DecidableEq, Repr

/-- Source flushQueues with an explicit slot index (lines 55-73): read the
slot, execute the requests surviving the second-pass filter, reset the
slot synchronously, and return the settle-join of the executed promises. -/
def flushQueues (reg : Registry) (index : Nat) (options : FlushOptions := {}) : SlotFlushResult :=
  let queue := reg.getD index []
  let executed := queue.filter (shouldExecuteOnFlush options)
  { registry := cleanQueues reg (some index)
    executed := executed
    promise := waitForAllToComplete (executed.map LoadRequest.promise) }

/-- Result of the whole-registry flush. -/
structure AllFlushResult where
  registry : Registry
  executed : List LoadRequest
  promise : JsPromise (List (List Nat))
deriving DecidableEq, Repr

/-- Source flushQueues with index undefined (lines 48-53): flush every
slot, passing NO options to the per-slot flushes, then reset the whole
registry. Each inner flush reads only its own slot, which no earlier
inner flush has touched, so every inner flush sees the pre-flush
registry contents for its slot. -/
def flushQueuesAll (reg : Registry) (_options : FlushOptions := {}) : AllFlushResult :=
  let inner := (List.range reg.length).map (fun i => flushQueues reg i {})
  { registry := cleanQueues reg none
    executed := (inner.map SlotFlushResult.executed).flatten
    promise := promiseAll (inner.map SlotFlushResult.promise) }

/-- Lifecycle phase for which a push happens (source LIFECYCLE_PHASES). -/
inductive LifecyclePhase where
  | mount
  | update
deriving DecidableEq, Repr

/-- An opaque frontload (fetch) function: its identifier, for tracing
invocations, and the promise an invocation returns. -/
structure FrontloadFn where
  fnId : Nat
  promise : JsPromise Nat
deriving DecidableEq, Repr

/-- State of one Frontload provider instance. firstClientRenderDone is the
field read by pushFrontload (source line 119); it is falsy at construction
and flipped to true by componentDidMount. -/
structure Provider where
  isServer : Bool
  propsNoServerRender : Bool
  queueIndex : Nat
  firstClientRenderDone : Bool
deriving DecidableEq, Repr

/-- What a single pushFrontload call did: nothing, queued a request into
the registry, or invoked the fetch function immediately (its returned
promise is discarded by this layer). -/
inductive PushAction where
  | skipped
  | enqueued
  | executedNow (fnId : Nat)
deriving DecidableEq, Repr

/-- Source pushFrontload (lines 90-129): the per-node push decision.
On the server with an effective noServerRender, or when the lifecycle
gate rejects the event, nothing happens. Otherwise the server path
enqueues a request into the provider slot and the client path executes
the fetch immediately, but only when noServerRender is effective or the
first client render is done. -/
def pushFrontload (p : Provider) (reg : Registry) (frontload : FrontloadFn)
    (options : NodeOptions) (lifecyclePhase : LifecyclePhase)
    (displayName : String) : Registry × PushAction :=
  let isMount := decide (lifecyclePhase = .mount)
  let isUpdate := decide (lifecyclePhase = .update)
  let noServerRender := p.propsNoServerRender || options.noServerRender
  if (p.isServer && noServerRender)
      || (isMount && options.onMount == some false)
      || (isUpdate && !truthy options.onUpdate) then
    (reg, .skipped)
  else if p.isServer then
    (enqueueRequest reg p.queueIndex
      { fnId := frontload.fnId
        promise := frontload.promise
        options := options
        componentDisplayName := displayName },
     .enqueued)
  else if noServerRender || p.firstClientRenderDone then
    (reg, .executedNow frontload.fnId)
  else
    (reg, .skipped)

/-- The Frontload provider constructor (source lines 134-139): resolve
isServer from the explicit prop or the environment, allocate a fresh slot
in the registry, and start with the first-client-render latch down. -/
def frontloadConstructor (propsIsServer : Option Bool) (propsNoServerRender : Bool)
    (envIsServer : Bool) (reg : Registry) : Provider × Registry :=
  let isServer := propsIsServer.getD envIsServer
  let a := allocateQueue reg
  ({ isServer := isServer
     propsNoServerRender := propsNoServerRender
     queueIndex := a.2
     firstClientRenderDone := false }, a.1)

/-- componentDidMount of the provider (source lines 150-156): flip the
one-way first-client-render latch. -/
def frontloadComponentDidMount (p : Provider) : Provider :=
  { p with firstClientRenderDone := true }

/-- Observable events of a coordinator run, in the order they happen:
renderer invocations (with their dry-run flag), fetch executions, and
diagnostic warnings. -/
inductive Event where
  | render (isDryRun : Bool)
  | execute (fnId : Nat)
  | warn
deriving DecidableEq, Repr

abbrev Trace := List Event

def isRenderEvent : Event → Bool
  | .render _ => true
  | _ => false

/-- Number of renderer invocations recorded in a trace. -/
def countRenders (tr : Trace) : Nat := (tr.filter isRenderEvent).length

/-- Source frontloadServerRenderWorker (lines 201-328). The renderer is
an opaque synchronous collaborator: given the dry-run flag, its private
state and the registry, it returns the new private state, the registry as
populated by the pushes it triggered, and its output. The fuel argument
bounds the recursion depth; the entry point supplies enough fuel for the
whole renderNumber range 1..maxPasses, so fuel never runs out there. -/
def frontloadServerRenderWorker {σ Output : Type}
    (render : Bool → σ → Registry → σ × Registry × Output)
    (withLogging : Bool) (maxPasses : Nat) :
    Nat → Nat → Int → σ → Registry → Trace → Option (σ × Registry × Trace × Output)
  | 0, _, _, _, _, _ => none
  | fuel + 1, renderNumber, frontloadsInLastRender, s, reg, tr =>
    let r1 := render true s reg
    let tr1 := tr ++ [Event.render true]
    let frontloadsQueue := (r1.2.1).getD 0 []
    let totalFrontloadsInThisRender : Int := (frontloadsQueue.length : Int)
    let newFrontloadsInThisRender := totalFrontloadsInThisRender - frontloadsInLastRender
    if newFrontloadsInThisRender = 0 then
      -- fixpoint: clean, final render, clean again, resolve with the output
      let reg2 := cleanQueues r1.2.1 none
      let r2 := render false r1.1 reg2
      let tr2 := tr1 ++ [Event.render false]
      some (r2.1, cleanQueues r2.2.1 none, tr2, r2.2.2)
    else
      -- flush every slot (no options forwarded), then continue once settled
      let fr := flushQueuesAll r1.2.1 {}
      let tr2 := tr1 ++ fr.executed.map (fun q => Event.execute q.fnId)
      if renderNumber = maxPasses then
        let r2 := render false r1.1 fr.registry
        let tr3 := tr2 ++ [Event.render false]
        let frontloadsQueue2 := (r2.2.1).getD 0 []
        let frontloadsLeftToRun : Int :=
          (frontloadsQueue2.length : Int) - totalFrontloadsInThisRender
        let tr4 := if withLogging ∧ 0 < frontloadsLeftToRun
          then tr3 ++ [Event.warn] else tr3
        some (r2.1, cleanQueues r2.2.1 none, tr4, r2.2.2)
      else
        frontloadServerRenderWorker render withLogging maxPasses fuel (renderNumber + 1)
          (frontloadsInLastRender + newFrontloadsInThisRender) r1.1 fr.registry tr2

/-- Public configuration of frontloadServerRender. A value of 0 for
maxNestedFrontloadComponents plays the role of the absent/falsy option in
the source. -/
structure ServerRenderOptions where
  maxNestedFrontloadComponents : Nat := 0
  withLogging : Bool := false
deriving DecidableEq, Repr

/-- Source frontloadServerRender (lines 330-351): normalise a falsy
maxNestedFrontloadComponents to the default 1, then delegate to the
worker at renderNumber 1 with no frontloads counted from a previous
render. -/
def frontloadServerRender {σ Output : Type}
    (render : Bool → σ → Registry → σ × Registry × Output)
    (options : ServerRenderOptions) (s : σ) (reg : Registry) :
    Option (σ × Registry × Trace × Output) :=
  let maxPasses := if options.maxNestedFrontloadComponents = 0 then 1
    else options.maxNestedFrontloadComponents
  frontloadServerRenderWorker render options.withLogging maxPasses maxPasses 1 0 s reg []

/-! ## Settle-join lemmas -/

theorem isRejected_jsCatch (p : JsPromise Nat) : isRejected (jsCatch p) = false := by
  cases h : p.outcome <;> simp [jsCatch, isRejected, h]

theorem time_jsCatch (p : JsPromise Nat) : (jsCatch p).time = p.time := by
  cases h : p.outcome <;> simp [jsCatch, h]

theorem filter_isRejected_map_jsCatch (ps : List (JsPromise Nat)) :
    (ps.map jsCatch).filter isRejected = [] := by
  induction ps with
  | nil => rfl
  | cons p t ih => simp [List.filter, isRejected_jsCatch, ih]

theorem resolvedValue?_jsCatch_isSome (p : JsPromise Nat) :
    (resolvedValue? (jsCatch p)).isSome = true := by
  cases h : p.outcome <;> simp [jsCatch, resolvedValue?, h]

theorem length_filterMap_map_jsCatch (ps : List (JsPromise Nat)) :
    ((ps.map jsCatch).filterMap resolvedValue?).length = ps.length := by
  induction ps with
  | nil => rfl
  | cons p t ih =>
    rw [List.map_cons, List.filterMap_cons]
    cases hv : resolvedValue? (jsCatch p) with
    | none =>
      exfalso
      have h := resolvedValue?_jsCatch_isSome p
      rw [hv] at h
      simp at h
    | some v => rw [List.length_cons, List.length_cons, ih]

theorem map_time_map_jsCatch (ps : List (JsPromise Nat)) :
    (ps.map jsCatch).map JsPromise.time = ps.map JsPromise.time := by
  induction ps with
  | nil => rfl
  | cons p t ih => simp [time_jsCatch, ih]

/-- waitForAllToComplete always resolves, with one entry per input, at the
time the last input settles. -/
theorem waitForAllToComplete_spec (ps : List (JsPromise Nat)) :
    (waitForAllToComplete ps).outcome
        = POutcome.resolved ((ps.map jsCatch).filterMap resolvedValue?) ∧
    ((ps.map jsCatch).filterMap resolvedValue?).length = ps.length ∧
    (waitForAllToComplete ps).time = (ps.map JsPromise.time).foldr Nat.max 0 := by
  have hempty : ((ps.map jsCatch).filter isRejected).isEmpty = true := by
    rw [filter_isRejected_map_jsCatch]; rfl
  refine ⟨?_, length_filterMap_map_jsCatch ps, ?_⟩
  · simp only [waitForAllToComplete, promiseAll, hempty, if_pos]
  · simp only [waitForAllToComplete, promiseAll, hempty, if_pos,
      map_time_map_jsCatch]

/-- C1: for every flush of a slot whose surviving requests are executed,
the promise returned by the flush engine resolves (never rejects) with
one settled entry per executed request, and it settles exactly at the
maximum of the executed promises settle times, i.e. only after all of
them have individually settled, however many of them rejected. -/
theorem flush_settle_join_absorbs_rejections (reg : Registry) (i : Nat)
    (opts : FlushOptions) :
    (∃ vs : List Nat,
        (flushQueues reg i opts).promise.outcome = POutcome.resolved vs ∧
        vs.length = (flushQueues reg i opts).executed.length) ∧
    (flushQueues reg i opts).promise.time =
      ((flushQueues reg i opts).executed.map (fun q => q.promise.time)).foldr Nat.max 0 := by
  have h := waitForAllToComplete_spec
    (((reg.getD i []).filter (shouldExecuteOnFlush opts)).map LoadRequest.promise)
  obtain ⟨h1, h2, h3⟩ := h
  constructor
  · refine ⟨_, h1, ?_⟩
    rw [h2, List.length_map]
    rfl
  · rw [show (flushQueues reg i opts).promise.time
        = (waitForAllToComplete
            (((reg.getD i []).filter (shouldExecuteOnFlush opts)).map
              LoadRequest.promise)).time from rfl, h3]
    rw [List.map_map]
    rfl

/-! ## Registry lemmas -/

theorem getD_range_map {α : Type} (l : List α) (d : α) :
    (List.range l.length).map (fun i => l.getD i d) = l := by
  induction l with
  | nil => rfl
  | cons a t ih =>
    rw [List.length_cons, List.range_succ_eq_map, List.map_cons, List.map_map]
    have : ((fun i => (a :: t).getD i d) ∘ Nat.succ) = fun i => t.getD i d := by
      funext i
      rfl
    rw [this, ih]
    rfl

theorem shouldExecuteOnFlush_default (q : LoadRequest) :
    shouldExecuteOnFlush {} q = true := rfl

/-- C10: the whole-registry flush does not forward its options to the
per-slot flushes: for every option value it executes every request queued
in every slot (including with firstClientRender set and no noServerRender
flag anywhere), and the whole result coincides with the one for the
default options. -/
theorem globalFlush_executes_all_ignores_options (reg : Registry)
    (opts : FlushOptions) :
    flushQueuesAll reg opts = flushQueuesAll reg {} ∧
    (flushQueuesAll reg opts).executed = reg.flatten := by
  refine ⟨rfl, ?_⟩
  show ((((List.range reg.length).map (fun i => flushQueues reg i {})).map
    SlotFlushResult.executed)).flatten = reg.flatten
  rw [List.map_map]
  have : (SlotFlushResult.executed ∘ fun i => flushQueues reg i {})
      = fun i => reg.getD i [] := by
    funext i
    show (reg.getD i []).filter (shouldExecuteOnFlush {}) = reg.getD i []
    exact List.filter_eq_self.2 (fun a _ => shouldExecuteOnFlush_default a)
  rw [this, getD_range_map]

/-- A sequence of n slot allocations, returning the final registry and
the indices handed out, in order. -/
def allocateChain : Nat → Registry → Registry × List Nat
  | 0, reg => (reg, [])
  | n + 1, reg =>
    let a := allocateQueue reg
    let rest := allocateChain n a.1
    (rest.1, a.2 :: rest.2)

theorem allocateChain_indices (n : Nat) :
    ∀ reg : Registry, (allocateChain n reg).2 = List.range' reg.length n := by
  induction n with
  | zero => intro reg; rfl
  | succ m ih =>
    intro reg
    have h1 : (allocateChain (m + 1) reg).2
        = (allocateQueue reg).2 :: (allocateChain m (allocateQueue reg).1).2 := rfl
    have h2 : ((allocateQueue reg).1).length = reg.length + 1 := by
      simp [allocateQueue]
    have h3 : (allocateQueue reg).2 = reg.length := rfl
    rw [h1, ih, h2, h3, List.range'_succ]

/-- C9 counterexample: the first allocation returns index 0 and, after a
whole-registry reset, the next allocation returns index 0 again — the
same slot index is handed out twice with a resetAll between the two
allocations, because cleanQueues with no index empties the registry
rather than keeping one empty slot per existing provider. -/
theorem allocate_index_reused_after_reset :
    (allocateQueue ([] : Registry)).2 = 0 ∧
    (allocateQueue (cleanQueues (allocateQueue ([] : Registry)).1 none)).2 = 0 := by
  exact ⟨rfl, rfl⟩

/-- C9 amended: every allocation returns the current registry length, so
successive allocations with no intervening whole-registry reset return
the strictly increasing, never-repeated indices length, length+1, ...;
the provider constructor hands exactly that index to its instance. But a
whole-registry reset empties the registry, so the next allocation after
it restarts at index 0. -/
theorem allocate_indices_monotone_between_resets (reg : Registry) (n : Nat) :
    (allocateQueue reg).2 = reg.length ∧
    (allocateChain n reg).2 = List.range' reg.length n ∧
    List.Pairwise (· < ·) (allocateChain n reg).2 ∧
    (frontloadConstructor none false true reg).1.queueIndex = reg.length ∧
    (allocateQueue (cleanQueues reg none)).2 = 0 := by
  refine ⟨rfl, allocateChain_indices n reg, ?_, rfl, rfl⟩
  rw [allocateChain_indices n reg]
  exact List.pairwise_lt_range' reg.length n

/-- C4: the flush engine resets the flushed slot synchronously, so in the
state paired with the returned settle-join promise the slot is already
empty; the executed batch is exactly the filtered pre-flush queue, so a
request pushed while the flushed batch is still in flight is not absorbed
into it, and the next flush of the slot executes exactly that late
request — it is neither dropped nor double-counted. -/
theorem flushQueues_resets_slot_before_settle (reg : Registry) (i : Nat)
    (opts : FlushOptions) (r : LoadRequest) (h : i < reg.length) :
    (flushQueues reg i opts).registry.getD i [] = [] ∧
    (flushQueues reg i opts).executed
      = (reg.getD i []).filter (shouldExecuteOnFlush opts) ∧
    (flushQueues (enqueueRequest (flushQueues reg i opts).registry i r) i opts).executed
      = List.filter (shouldExecuteOnFlush opts) [r] := by
  have hset : ∀ l : List LoadRequest,
      ((reg.set i l).getD i []) = l := by
    intro l
    rw [List.getD_eq_getElem?_getD, List.getElem?_set_self (by simpa using h)]
    rfl
  refine ⟨hset [], rfl, ?_⟩
  show ((enqueueRequest (reg.set i []) i r).getD i []).filter (shouldExecuteOnFlush opts)
    = List.filter (shouldExecuteOnFlush opts) [r]
  have hlen : i < (reg.set i []).length := by simpa using h
  show (((reg.set i []).set i (r :: (reg.set i []).getD i [])).getD i []).filter
      (shouldExecuteOnFlush opts) = List.filter (shouldExecuteOnFlush opts) [r]
  rw [hset []]
  rw [List.set_set]
  rw [hset [r]]

/-- C2: on the server, a push is skipped (nothing enqueued, nothing
executed) exactly when the effective noServerRender is set or the
lifecycle gate rejects the event; otherwise the push appends a load
request built from the fetch function and the node options to the
provider slot, and the fetch function is not invoked during the push. -/
theorem pushFrontload_server_decision (p : Provider) (reg : Registry)
    (fl : FrontloadFn) (opts : NodeOptions) (phase : LifecyclePhase) (name : String)
    (hs : p.isServer = true) :
    (((p.propsNoServerRender || opts.noServerRender) = true
        ∨ (phase = LifecyclePhase.mount ∧ opts.onMount = some false)
        ∨ (phase = LifecyclePhase.update ∧ truthy opts.onUpdate = false)) →
      pushFrontload p reg fl opts phase name = (reg, PushAction.skipped)) ∧
    (¬ ((p.propsNoServerRender || opts.noServerRender) = true
        ∨ (phase = LifecyclePhase.mount ∧ opts.onMount = some false)
        ∨ (phase = LifecyclePhase.update ∧ truthy opts.onUpdate = false)) →
      pushFrontload p reg fl opts phase name
        = (enqueueRequest reg p.queueIndex
            { fnId := fl.fnId
              promise := fl.promise
              options := opts
              componentDisplayName := name },
           PushAction.enqueued)) := by
  have hb : ((p.isServer && (p.propsNoServerRender || opts.noServerRender))
      || (decide (phase = LifecyclePhase.mount) && (opts.onMount == some false))
      || (decide (phase = LifecyclePhase.update) && !truthy opts.onUpdate)) = true
      ↔ ((p.propsNoServerRender || opts.noServerRender) = true
        ∨ (phase = LifecyclePhase.mount ∧ opts.onMount = some false)
        ∨ (phase = LifecyclePhase.update ∧ truthy opts.onUpdate = false)) := by
    simp [hs]
    tauto
  constructor
  · intro h
    simp only [pushFrontload]
    rw [if_pos (hb.mpr h)]
  · intro h
    simp only [pushFrontload]
    rw [if_neg (fun hc => h (hb.mp hc)), if_pos hs]

theorem pushFrontload_server_decision_witness :
    pushFrontload
      { isServer := true, propsNoServerRender := false, queueIndex := 0,
        firstClientRenderDone := false }
      [[]]
      { fnId := 3, promise := { time := 5, outcome := POutcome.resolved 1 } }
      {} LifecyclePhase.mount "A"
      = (enqueueRequest [[]] 0
          { fnId := 3
            promise := { time := 5, outcome := POutcome.resolved 1 }
            options := {}
            componentDisplayName := "A" },
         PushAction.enqueued) :=
  (pushFrontload_server_decision
    { isServer := true, propsNoServerRender := false, queueIndex := 0,
      firstClientRenderDone := false }
    [[]]
    { fnId := 3, promise := { time := 5, outcome := POutcome.resolved 1 } }
    {} LifecyclePhase.mount "A" rfl).2 (by decide)

/-- C3: on the client, once the lifecycle gate passes, a push with no
effective noServerRender and the first-client-render latch still down does
nothing at all (no execution, no enqueue); with an effective
noServerRender or the latch up, the push invokes the fetch immediately
and leaves the registry untouched; in particular after componentDidMount
flips the latch, the identical push executes immediately. -/
theorem pushFrontload_client_decision (p : Provider) (reg : Registry)
    (fl : FrontloadFn) (opts : NodeOptions) (phase : LifecyclePhase) (name : String)
    (hc : p.isServer = false)
    (hm : phase = LifecyclePhase.mount → opts.onMount ≠ some false)
    (hu : phase = LifecyclePhase.update → truthy opts.onUpdate = true) :
    ((p.propsNoServerRender || opts.noServerRender) = false →
        p.firstClientRenderDone = false →
        pushFrontload p reg fl opts phase name = (reg, PushAction.skipped)) ∧
    ((p.propsNoServerRender || opts.noServerRender) = true
        ∨ p.firstClientRenderDone = true →
        pushFrontload p reg fl opts phase name
          = (reg, PushAction.executedNow fl.fnId)) ∧
    pushFrontload (frontloadComponentDidMount p) reg fl opts phase name
      = (reg, PushAction.executedNow fl.fnId) := by
  have hgate : ∀ q : Provider, q.isServer = false →
      ((q.isServer && (q.propsNoServerRender || opts.noServerRender))
        || (decide (phase = LifecyclePhase.mount) && (opts.onMount == some false))
        || (decide (phase = LifecyclePhase.update) && !truthy opts.onUpdate)) = false := by
    intro q hq
    rw [hq]
    cases phase with
    | mount => simp [hm rfl]
    | update => simp [hu rfl]
  have hpns : (frontloadComponentDidMount p).propsNoServerRender
      = p.propsNoServerRender := rfl
  refine ⟨?_, ?_, ?_⟩
  · intro h1 h2
    simp only [pushFrontload]
    rw [if_neg (by rw [hgate p hc]; exact Bool.false_ne_true), if_neg (by rw [hc]; exact Bool.false_ne_true),
      if_neg (by rw [h1, h2]; exact Bool.false_ne_true)]
  · intro h
    simp only [pushFrontload]
    rw [if_neg (by rw [hgate p hc]; exact Bool.false_ne_true), if_neg (by rw [hc]; exact Bool.false_ne_true),
      if_pos (by rcases h with h | h <;> simp [h])]
  · simp only [pushFrontload]
    rw [if_neg (by rw [hgate (frontloadComponentDidMount p) hc]; exact Bool.false_ne_true),
      if_neg (by show ¬ ((frontloadComponentDidMount p).isServer = true)
                 rw [show (frontloadComponentDidMount p).isServer = p.isServer from rfl, hc]
                 exact Bool.false_ne_true),
      if_pos (by rw [show (frontloadComponentDidMount p).firstClientRenderDone = true from rfl]
                 simp)]

theorem pushFrontload_client_decision_witness :
    pushFrontload
      { isServer := false, propsNoServerRender := false, queueIndex := 0,
        firstClientRenderDone := false }
      [[]]
      { fnId := 4, promise := { time := 2, outcome := POutcome.rejected 9 } }
      {} LifecyclePhase.mount "B"
      = ([[]], PushAction.skipped) :=
  (pushFrontload_client_decision
    { isServer := false, propsNoServerRender := false, queueIndex := 0,
      firstClientRenderDone := false }
    [[]]
    { fnId := 4, promise := { time := 2, outcome := POutcome.rejected 9 } }
    {} LifecyclePhase.mount "B" rfl (fun _ => by decide) (fun h => by cases h)).1
    rfl rfl

/-- A second queued load request whose promise rejects, used by concrete
runs. -/
def testRequestRejecting : LoadRequest :=
  { fnId := 2
    promise := { time := 1, outcome := POutcome.rejected 3 }
    options := {}
    componentDisplayName := "W" }

theorem flushQueues_resets_slot_before_settle_witness :
    (0 : Nat) < ([[testRequestRejecting]] : Registry).length ∧
    (flushQueues [[testRequestRejecting]] 0 {}).registry.getD 0 [] = [] :=
  ⟨by decide,
    (flushQueues_resets_slot_before_settle [[testRequestRejecting]] 0 {}
      testRequestRejecting (by decide)).1⟩

/-! ## Coordinator lemmas -/

theorem countRenders_append (a b : Trace) :
    countRenders (a ++ b) = countRenders a + countRenders b := by
  simp [countRenders, List.filter_append]

theorem countRenders_execs (l : List LoadRequest) :
    countRenders (l.map (fun q => Event.execute q.fnId)) = 0 := by
  induction l with
  | nil => rfl
  | cons q t ih => simp [countRenders, List.filter, isRenderEvent]

/-- One-step unfolding of the worker in the fixpoint branch: no new
frontloads were discovered by the dry run. -/
theorem worker_fixpoint_eq {σ Output : Type}
    (render : Bool → σ → Registry → σ × Registry × Output)
    (withLogging : Bool) (maxPasses f renderNumber : Nat) (last : Int)
    (s : σ) (reg : Registry) (tr : Trace)
    (hfix : ((((render true s reg).2.1.getD 0 []).length : Int) - last = 0)) :
    frontloadServerRenderWorker render withLogging maxPasses (f + 1)
        renderNumber last s reg tr
      = some ((render false (render true s reg).1 []).1,
          cleanQueues (render false (render true s reg).1 []).2.1 none,
          tr ++ [Event.render true] ++ [Event.render false],
          (render false (render true s reg).1 []).2.2) := by
  simp only [frontloadServerRenderWorker]
  rw [if_pos hfix]
  rfl

/-- One-step unfolding of the worker in the exhausted-budget branch: new
frontloads were discovered but renderNumber has reached maxPasses. -/
theorem worker_exhausted_eq {σ Output : Type}
    (render : Bool → σ → Registry → σ × Registry × Output)
    (withLogging : Bool) (maxPasses f renderNumber : Nat) (last : Int)
    (s : σ) (reg : Registry) (tr : Trace)
    (hnew : ¬ ((((render true s reg).2.1.getD 0 []).length : Int) - last = 0))
    (hmax : renderNumber = maxPasses) :
    frontloadServerRenderWorker render withLogging maxPasses (f + 1)
        renderNumber last s reg tr
      = some ((render false (render true s reg).1
            (flushQueuesAll (render true s reg).2.1 {}).registry).1,
          cleanQueues (render false (render true s reg).1
            (flushQueuesAll (render true s reg).2.1 {}).registry).2.1 none,
          tr ++ [Event.render true]
            ++ (flushQueuesAll (render true s reg).2.1 {}).executed.map
                (fun q => Event.execute q.fnId)
            ++ [Event.render false]
            ++ (if withLogging ∧ 0 <
                  ((((render false (render true s reg).1
                      (flushQueuesAll (render true s reg).2.1 {}).registry).2.1.getD
                        0 []).length : Int)
                    - (((render true s reg).2.1.getD 0 []).length : Int))
                then [Event.warn] else []),
          (render false (render true s reg).1
            (flushQueuesAll (render true s reg).2.1 {}).registry).2.2) := by
  simp only [frontloadServerRenderWorker]
  rw [if_neg hnew, if_pos hmax]
  by_cases hw : (withLogging = true ∧ 0 <
      ((((render false (render true s reg).1
          (flushQueuesAll (render true s reg).2.1 {}).registry).2.1.getD
            0 []).length : Int)
        - (((render true s reg).2.1.getD 0 []).length : Int)))
  · rw [if_pos hw, if_pos hw]
  · rw [if_neg hw, if_neg hw, List.append_nil]

/-- One-step unfolding of the worker in the recursive branch: new
frontloads were discovered and the budget is not yet exhausted. -/
theorem worker_recurse_eq {σ Output : Type}
    (render : Bool → σ → Registry → σ × Registry × Output)
    (withLogging : Bool) (maxPasses f renderNumber : Nat) (last : Int)
    (s : σ) (reg : Registry) (tr : Trace)
    (hnew : ¬ ((((render true s reg).2.1.getD 0 []).length : Int) - last = 0))
    (hmax : renderNumber ≠ maxPasses) :
    frontloadServerRenderWorker render withLogging maxPasses (f + 1)
        renderNumber last s reg tr
      = frontloadServerRenderWorker render withLogging maxPasses f
          (renderNumber + 1)
          (last + ((((render true s reg).2.1.getD 0 []).length : Int) - last))
          (render true s reg).1
          (flushQueuesAll (render true s reg).2.1 {}).registry
          (tr ++ [Event.render true]
            ++ (flushQueuesAll (render true s reg).2.1 {}).executed.map
                (fun q => Event.execute q.fnId)) := by
  simp only [frontloadServerRenderWorker]
  rw [if_neg hnew, if_neg hmax]

theorem countRenders_single (b : Bool) : countRenders [Event.render b] = 1 := rfl

theorem countRenders_ifwarn (c : Prop) [Decidable c] :
    countRenders (if c then [Event.warn] else []) = 0 := by
  by_cases h : c
  · rw [if_pos h]; rfl
  · rw [if_neg h]; rfl

theorem workerRendersBound {σ Output : Type}
    (render : Bool → σ → Registry → σ × Registry × Output)
    (withLogging : Bool) (maxPasses : Nat) :
    ∀ (fuel renderNumber : Nat) (last : Int) (s : σ) (reg : Registry) (tr : Trace),
      renderNumber ≤ maxPasses → maxPasses - renderNumber < fuel →
      ∃ s2 reg2 tr2 out,
        frontloadServerRenderWorker render withLogging maxPasses fuel
            renderNumber last s reg tr
          = some (s2, reg2, tr2, out) ∧
        countRenders tr2 ≤ countRenders tr + (maxPasses - renderNumber) + 2 := by
  intro fuel
  induction fuel with
  | zero =>
    intro rn last s reg tr _ h2
    omega
  | succ f ih =>
    intro rn last s reg tr h1 h2
    by_cases hfix : ((((render true s reg).2.1.getD 0 []).length : Int) - last = 0)
    · refine ⟨_, _, _, _,
        worker_fixpoint_eq render withLogging maxPasses f rn last s reg tr hfix, ?_⟩
      rw [countRenders_append, countRenders_append, countRenders_single,
        countRenders_single]
      omega
    · by_cases hmax : rn = maxPasses
      · refine ⟨_, _, _, _,
          worker_exhausted_eq render withLogging maxPasses f rn last s reg tr hfix hmax, ?_⟩
        rw [countRenders_append, countRenders_append, countRenders_append,
          countRenders_append, countRenders_single, countRenders_single,
          countRenders_execs, countRenders_ifwarn]
        omega
      · obtain ⟨s2, reg2, tr2, out, heq, hb⟩ := ih (rn + 1)
          (last + ((((render true s reg).2.1.getD 0 []).length : Int) - last))
          (render true s reg).1
          (flushQueuesAll (render true s reg).2.1 {}).registry
          (tr ++ [Event.render true]
            ++ (flushQueuesAll (render true s reg).2.1 {}).executed.map
                (fun q => Event.execute q.fnId))
          (by omega) (by omega)
        refine ⟨s2, reg2, tr2, out, ?_, ?_⟩
        · rw [worker_recurse_eq render withLogging maxPasses f rn last s reg tr hfix hmax]
          exact heq
        · rw [countRenders_append, countRenders_append, countRenders_single,
            countRenders_execs] at hb
          omega

/-- C5: with maxPasses at least 1 the render-pass coordinator terminates,
and a successful run invokes the renderer at most maxPasses + 1 times in
total (the dry runs plus the single final render). -/
theorem frontloadServerRender_terminates_bounded {σ Output : Type}
    (render : Bool → σ → Registry → σ × Registry × Output)
    (options : ServerRenderOptions) (s : σ) (reg : Registry)
    (h : 1 ≤ options.maxNestedFrontloadComponents) :
    ∃ s2 reg2 tr out,
      frontloadServerRender render options s reg = some (s2, reg2, tr, out) ∧
      countRenders tr ≤ options.maxNestedFrontloadComponents + 1 := by
  have hne : ¬ (options.maxNestedFrontloadComponents = 0) := by omega
  obtain ⟨s2, reg2, tr, out, heq, hb⟩ :=
    workerRendersBound render options.withLogging
      options.maxNestedFrontloadComponents
      options.maxNestedFrontloadComponents 1 0 s reg [] h (by omega)
  refine ⟨s2, reg2, tr, out, ?_, ?_⟩
  · simp only [frontloadServerRender]
    rw [if_neg hne]
    exact heq
  · have hz : countRenders ([] : Trace) = 0 := rfl
    omega

/-- A renderer whose tree contains no frontloaded component: it triggers
no push, leaving the registry exactly as it found it. -/
def renderNone : Bool → Unit → Registry → Unit × Registry × Nat :=
  fun _ s reg => (s, reg, 5)

theorem frontloadServerRender_terminates_bounded_witness :
    1 ≤ (1 : Nat) ∧
    ∃ s2 reg2 tr out,
      frontloadServerRender renderNone { maxNestedFrontloadComponents := 1 } () []
        = some (s2, reg2, tr, out) ∧
      countRenders tr ≤ 1 + 1 :=
  ⟨by decide, frontloadServerRender_terminates_bounded renderNone
    { maxNestedFrontloadComponents := 1 } () [] (by decide)⟩

/-- C6: when a dry run discovers zero new requests (the fixpoint), the
worker resets every slot, performs exactly one final render, resets every
slot again and resolves with that final output; its trace gains no
execute event, so any load request enqueued during the final render is
never executed, and the registry is empty when the coordinator returns. -/
theorem fixpoint_final_render_not_flushed {σ Output : Type}
    (render : Bool → σ → Registry → σ × Registry × Output)
    (withLogging : Bool) (maxPasses fuel renderNumber : Nat) (last : Int)
    (s : σ) (reg : Registry) (tr : Trace)
    (hfuel : 1 ≤ fuel)
    (hfix : ((((render true s reg).2.1.getD 0 []).length : Int)) = last) :
    frontloadServerRenderWorker render withLogging maxPasses fuel
        renderNumber last s reg tr
      = some ((render false (render true s reg).1 []).1,
          [],
          tr ++ [Event.render true, Event.render false],
          (render false (render true s reg).1 []).2.2) := by
  obtain ⟨f, rfl⟩ : ∃ f, fuel = f + 1 := ⟨fuel - 1, by omega⟩
  rw [worker_fixpoint_eq render withLogging maxPasses f renderNumber last s reg tr
    (by omega)]
  rw [List.append_assoc]
  rfl

theorem fixpoint_final_render_not_flushed_witness :
    frontloadServerRenderWorker renderNone false 3 2 1 0 () [] []
      = some ((), [], [Event.render true, Event.render false], 5) :=
  fixpoint_final_render_not_flushed renderNone false 3 2 1 0 () [] []
    (by decide) (by decide)

/-- C7 amended: when the pass budget is exhausted with new requests still
pending, the worker flushes (executing the pending batch), performs one
final render on the emptied registry, and emits exactly one diagnostic
only when logging is enabled and slot 0 after the final render holds MORE
requests than were counted in the exhausted pass (not merely a nonzero
number); it then resets every slot and resolves with the best-effort
output rather than failing. -/
theorem budget_exhausted_diagnostic_condition {σ Output : Type}
    (render : Bool → σ → Registry → σ × Registry × Output)
    (withLogging : Bool) (maxPasses fuel renderNumber : Nat) (last : Int)
    (s : σ) (reg : Registry) (tr : Trace)
    (hfuel : 1 ≤ fuel)
    (hnew : ((((render true s reg).2.1.getD 0 []).length : Int)) ≠ last)
    (hmax : renderNumber = maxPasses) :
    frontloadServerRenderWorker render withLogging maxPasses fuel
        renderNumber last s reg tr
      = some ((render false (render true s reg).1
            (flushQueuesAll (render true s reg).2.1 {}).registry).1,
          [],
          tr ++ [Event.render true]
            ++ (flushQueuesAll (render true s reg).2.1 {}).executed.map
                (fun q => Event.execute q.fnId)
            ++ [Event.render false]
            ++ (if withLogging ∧ 0 <
                  ((((render false (render true s reg).1
                      (flushQueuesAll (render true s reg).2.1 {}).registry).2.1.getD
                        0 []).length : Int)
                    - (((render true s reg).2.1.getD 0 []).length : Int))
                then [Event.warn] else []),
          (render false (render true s reg).1
            (flushQueuesAll (render true s reg).2.1 {}).registry).2.2) := by
  obtain ⟨f, rfl⟩ : ∃ f, fuel = f + 1 := ⟨fuel - 1, by omega⟩
  rw [worker_exhausted_eq render withLogging maxPasses f renderNumber last s reg tr
    (by omega) hmax]
  rfl

/-- A single queued load request used by concrete runs. -/
def testRequest : LoadRequest :=
  { fnId := 7
    promise := { time := 0, outcome := POutcome.resolved 0 }
    options := {}
    componentDisplayName := "X" }

/-- A renderer whose tree always pushes exactly one load request into
slot 0 (one frontloaded component at the top of the tree). -/
def oneRequestRenderer : Bool → Unit → Registry → Unit × Registry × Nat :=
  fun _ s _ => (s, [[testRequest]], 99)

theorem budget_exhausted_diagnostic_condition_witness :
    frontloadServerRenderWorker oneRequestRenderer false 1 1 1 0 () [] []
      = some ((), [],
          [Event.render true, Event.execute 7, Event.render false], 99) := by
  rw [budget_exhausted_diagnostic_condition oneRequestRenderer false 1 1 1 0 () [] []
    (by decide) (by decide) rfl]
  rfl

/-- C7 counterexample: one frontloaded component, one allowed pass,
logging on. The budget is exhausted with a new request pending; after the
final render slot 0 holds one request, a NONZERO size, yet the run emits
no diagnostic (no warn event in the trace), because the source only warns
when slot 0 has grown beyond the count flushed in the exhausted pass. -/
theorem budget_diagnostic_counterexample :
    frontloadServerRender oneRequestRenderer
        { maxNestedFrontloadComponents := 1, withLogging := true } () []
      = some ((), [],
          [Event.render true, Event.execute 7, Event.render false], 99) ∧
    ((oneRequestRenderer false ()
        (flushQueuesAll (oneRequestRenderer true () []).2.1 {}).registry).2.1.getD
          0 []).length = 1 := by
  exact ⟨by decide, by decide⟩

/-- C8 counterexample: with maxNestedFrontloadComponents 0, i.e. below
the documented minimum of 1, the entry point raises no configuration
error and does not fail fast: the renderer is invoked twice and the run
resolves normally with the final output. -/
theorem maxPasses_zero_counterexample :
    frontloadServerRender renderNone { maxNestedFrontloadComponents := 0 } () []
      = some ((), [], [Event.render true, Event.render false], 5) ∧
    countRenders [Event.render true, Event.render false] = 2 := by
  exact ⟨by decide, by decide⟩

/-- C8 amended: a falsy maxNestedFrontloadComponents (0) is silently
replaced by the default 1 before any render; the run is identical to one
configured with maxPasses 1, and no configuration error is ever raised. -/
theorem maxPasses_falsy_defaults_to_one {σ Output : Type}
    (render : Bool → σ → Registry → σ × Registry × Output)
    (withLogging : Bool) (s : σ) (reg : Registry) :
    frontloadServerRender render
        { maxNestedFrontloadComponents := 0, withLogging := withLogging } s reg
      = frontloadServerRender render
        { maxNestedFrontloadComponents := 1, withLogging := withLogging } s reg := rfl

end ReactFrontload
